import Mathlib

set_option maxRecDepth 8000

/-! Verification development for the universal-connectivity-workshop
checker scripts.  The Python checkers scrape a captured text trace with
regular expressions and validate the captured tokens.  Strings are
modelled as lists of characters; every regular-expression search of the
source is embedded as an explicit scanning function over those lists
(first match from position 0, greedy character-class runs, exactly as the
patterns behave on the traces in question, whose character classes never
force backtracking). -/

abbrev Str := List Char

def str (s : String) : Str := s.data

/-- Python `s.lower()` on the ASCII data appearing in the traces. -/
def lowerStr (s : Str) : Str := s.map Char.toLower

/-- The whitespace characters stripped by Python `str.strip` and matched
by the regex class backslash-s. -/
def isPyWS (c : Char) : Bool :=
  c = ' ' || c = '\t' || c = '\n' || c = '\r' || c = '\x0b' || c = '\x0c'

/-- Python `s.strip()`. -/
def trimStr (s : Str) : Str :=
  ((s.dropWhile isPyWS).reverse.dropWhile isPyWS).reverse

/-- Python substring test `needle in hay`. -/
def strContains : Str → Str → Bool
  | [], needle => needle.isEmpty
  | c :: t, needle => needle.isPrefixOf (c :: t) || strContains t needle

/-- Digits-to-number conversion performed by Python `int` on a run of
decimal digits captured by a digit-class pattern. -/
def digitsToNat (s : Str) : Nat := s.foldl (fun n c => n * 10 + (c.toNat - 48)) 0

def natToStr (n : Nat) : Str := (Nat.repr n).data

/-- `re.search` applied to a pattern whose match-at-a-position semantics
is given by `m`: try every start position left to right, return the first
success together with its start position. -/
def searchPos {α : Type} (m : Str → Option α) : Str → Option (Nat × α)
  | [] => (m []).map (fun a => (0, a))
  | c :: t =>
    match m (c :: t) with
    | some a => some (0, a)
    | none => (searchPos m t).map (fun p => (p.1 + 1, p.2))

/-- Match a literal at the head of the string and return the rest. -/
def dropPrefixQ (pre s : Str) : Option Str :=
  if pre.isPrefixOf s then some (s.drop pre.length) else none

/-- The regex class `[A-Za-z0-9]`. -/
def isAlnum (c : Char) : Bool := c.isAlpha || c.isDigit

/-- The regex class used for multiaddr captures: `[/\w.:]` with ASCII
word characters. -/
def isMAChar (c : Char) : Bool :=
  c = '/' || isAlnum c || c = '_' || c = '.' || c = ':'

/-- The base58 alphabet string `valid_chars` of the checkers. -/
def b58 : Str := str "123456789ABCDEFGHJKLMNPQRSTUVWXYZabcdefghijkmnopqrstuvwxyz"

/-- First character of `p` outside the base58 alphabet: the character the
checkers' validation loop reports. -/
def firstNonB58 (p : Str) : Option Char := p.find? (fun c => !(b58.contains c))

def allB58 (p : Str) : Bool := p.all (fun c => b58.contains c)

/-- `len(output.strip().split(chr(10)))` of the checkers. -/
def countLines (out : Str) : Nat := (trimStr out).count '\n' + 1

/-- Python `s.split` on newline. -/
def splitLines : Str → List Str
  | [] => [[]]
  | c :: t =>
    match splitLines t with
    | [] => [[]]
    | l :: ls => if c = '\n' then [] :: l :: ls else (c :: l) :: ls

def startupLit : Str := str "Starting Universal Connectivity Application"

/- ## Token validators (per checker file, with their exact message texts) -/

def peer_prefix_msg (p : Str) : Str :=
  str "Invalid peer ID format. Expected to start with \x2712D3KooW\x27, got: " ++ p

def peer_length_msg (p : Str) : Str :=
  str "Peer ID length seems invalid. Expected 45-60 chars, got " ++
    natToStr p.length ++ str ": " ++ p

def peer_alpha_msg (c : Char) : Str :=
  str "Invalid character \x27" ++ [c] ++ str "\x27 in peer ID. Must be base58 encoded."

/-- `validate_peer_id` of en/rs/01, en/rs/02, en/rs/03 and en/rs/06
(identical text in all four files). -/
def rs_validate_peer_id (p : Str) : Bool × Str :=
  if !((str "12D3KooW").isPrefixOf p) then (false, peer_prefix_msg p)
  else if p.length < 45 || 60 < p.length then (false, peer_length_msg p)
  else
    match firstNonB58 p with
    | some c => (false, peer_alpha_msg c)
    | none => (true, str "Valid peer ID format: " ++ p)

/-- `validate_multiaddr` of en/rs/02 and en/rs/03: must start with /ip4/
or /ip6/ and contain "/tcp/". -/
def rs_validate_multiaddr (a : Str) : Bool × Str :=
  if !((str "/ip4/").isPrefixOf a || (str "/ip6/").isPrefixOf a) then
    (false, str "Invalid multiaddr format: " ++ a)
  else if !(strContains a (str "/tcp/")) then
    (false, str "Missing TCP transport in multiaddr: " ++ a)
  else (true, str "Valid multiaddr: " ++ a)

/-- `validate_peer_id` of en/js/03: same checks as the rs variant but the
success message is the peer id itself. -/
def js03_validate_peer_id (p : Str) : Bool × Str :=
  if !((str "12D3KooW").isPrefixOf p) then (false, peer_prefix_msg p)
  else if p.length < 45 || 60 < p.length then (false, peer_length_msg p)
  else
    match firstNonB58 p with
    | some c => (false, peer_alpha_msg c)
    | none => (true, p)

/-- `validate_multiaddr` of en/js/03: /ip4/ or /ip6/ start and "/tcp" or
"/quic-v1" somewhere. -/
def js03_validate_multiaddr (a : Str) : Bool × Str :=
  if !((str "/ip4/").isPrefixOf a || (str "/ip6/").isPrefixOf a) then
    (false, str "Invalid multiaddr format: " ++ a)
  else if !(strContains a (str "/tcp") || strContains a (str "/quic-v1")) then
    (false, str "Missing TCP or QUIC transport in multiaddr: " ++ a)
  else (true, a)

/-- `validate_peer_id` of en/js/04 (check order: missing, length,
alphabet, prefix, expected-value).  `expected = none` models the Python
default `expected=None`. -/
def js04_validate_peer_id (p : Str) (expected : Option Str) : Bool × Str :=
  if p.isEmpty then (false, str "PeerId is missing or not a string.")
  else if !(45 ≤ p.length && p.length ≤ 60) then
    (false, str "PeerId length invalid: " ++ natToStr p.length ++
      str " (should be 45-60 chars)")
  else if !(allB58 p) then (false, str "PeerId contains non-base58 characters.")
  else if !((str "12D3KooW").isPrefixOf p) then
    (false, str "PeerId does not start with \x2712D3KooW\x27 (expected Ed25519 PeerId).")
  else
    match expected with
    | some e =>
      if e.isEmpty = false ∧ p ≠ e then
        (false, str "PeerId does not match expected value from peer-id.json (" ++ e ++ str ")")
      else (true, str "PeerId valid.")
    | none => (true, str "PeerId valid.")

/-- `validate_multiaddr` of en/js/04 with its `require_circuit` flag. -/
def js04_validate_multiaddr (a : Str) (require_circuit : Bool) : Bool × Str :=
  if a.isEmpty then (false, str "Multiaddr is missing or not a string.")
  else if !((str "/ip4/").isPrefixOf a || (str "/ip6/").isPrefixOf a) then
    (false, str "Multiaddr must start with /ip4/ or /ip6/.")
  else if !(strContains a (str "/p2p/")) then
    (false, str "Multiaddr must contain /p2p/<PeerId>.")
  else if require_circuit && !(strContains a (str "/p2p-circuit")) then
    (false, str "Multiaddr must include /p2p-circuit for relayed addresses.")
  else if !require_circuit && strContains a (str "/p2p-circuit") then
    (false, str "Relay node multiaddr should NOT include /p2p-circuit.")
  else (true, str "Multiaddr valid.")

/-- `validate_peer_id` of en/py/07: recognizes the 12D3KooW and 16Uiu2HAm
prefixes. -/
def py07_validate_peer_id (p : Str) : Bool × Str :=
  if !((str "12D3KooW").isPrefixOf p || (str "16Uiu2HAm").isPrefixOf p) then
    (false, str "Invalid peer ID format. Expected to start with one of [\x2712D3KooW\x27, \x2716Uiu2HAm\x27], got: " ++ p)
  else if p.length < 45 || 60 < p.length then (false, peer_length_msg p)
  else
    match firstNonB58 p with
    | some c => (false, peer_alpha_msg c)
    | none => (true, str "Valid peer ID format: " ++ p)

/- ## Trace-line matchers shared by the rs checkers.
Each embeds one regex's match-at-a-position semantics. -/

/-- Pattern `Local peer id: (12D3KooW[A-Za-z0-9]+)` matched at the head
of `s`; the capture includes the literal prefix, the alnum run is
greedy. -/
def matchLocalPeerIdAt (s : Str) : Option Str :=
  match dropPrefixQ (str "Local peer id: ") s with
  | none => none
  | some s1 =>
    match dropPrefixQ (str "12D3KooW") s1 with
    | none => none
    | some s2 =>
      let run := s2.takeWhile isAlnum
      if run.isEmpty then none else some (str "12D3KooW" ++ run)

/-- Pattern `Dialing: ([/\w.:]+)` matched at the head of `s`. -/
def matchDialingAt (s : Str) : Option Str :=
  match dropPrefixQ (str "Dialing: ") s with
  | none => none
  | some s1 =>
    let run := s1.takeWhile isMAChar
    if run.isEmpty then none else some run

/-- Pattern `Connected to: (12D3KooW[A-Za-z0-9]+) via <ma>` (the dialed
multiaddr `ma` is interpolated and re.escaped, hence literal) matched at
the head of `s`. -/
def matchConnectedAt (ma : Str) (s : Str) : Option Str :=
  match dropPrefixQ (str "Connected to: ") s with
  | none => none
  | some s1 =>
    match dropPrefixQ (str "12D3KooW") s1 with
    | none => none
    | some s2 =>
      let run := s2.takeWhile isAlnum
      if run.isEmpty then none
      else
        match dropPrefixQ (str " via " ++ ma) (s2.drop run.length) with
        | none => none
        | some _ => some (str "12D3KooW" ++ run)

/-- Pattern `Received a ping from <rp>, round trip time: (\d+) ms`
matched at the head of `s`; returns the captured round-trip time (as the
number Python `int` yields on the digit run) and the full match
length. -/
def matchPingAt (rp : Str) (s : Str) : Option (Nat × Nat) :=
  match dropPrefixQ (str "Received a ping from " ++ rp ++ str ", round trip time: ") s with
  | none => none
  | some s1 =>
    let ds := s1.takeWhile Char.isDigit
    if ds.isEmpty then none
    else
      match dropPrefixQ (str " ms") (s1.drop ds.length) with
      | none => none
      | some _ =>
        some (digitsToNat ds,
          (str "Received a ping from " ++ rp ++ str ", round trip time: ").length
            + ds.length + 3)

/-- `re.findall` of the ping pattern: scan left to right, resume after
each match (every match consumes at least one character). -/
def findAllPingsAux (rp : Str) : Nat → Str → List Nat
  | 0, _ => []
  | fuel + 1, s =>
    match matchPingAt rp s with
    | some (v, len) => v :: findAllPingsAux rp fuel (s.drop len)
    | none =>
      match s with
      | [] => []
      | _ :: t => findAllPingsAux rp fuel t

def findAllPings (rp out : Str) : List Nat := findAllPingsAux rp (out.length + 1) out

/- ## en/rs/01-identity-and-swarm/check.py -/

/-- One constructor per distinct outcome of `check_output` in
en/rs/01 (each `return False` site with its diagnostic, and the success
path). -/
inductive Rs01Outcome where
  | noLog
  | emptyLog
  | noStartup
  | noPeerId
  | invalidPeer (msg : Str)
  | crashedEarly
  | pass
deriving DecidableEq

/-- `check_output` of en/rs/01: startup banner, peer-id extraction with
the `Local peer id: (12D3KooW[A-Za-z0-9]+)` pattern, `validate_peer_id`
on the capture, and a minimum line count of 2. -/
def rs01_check_output (le : Bool) (out : Str) : Rs01Outcome :=
  if !le then .noLog
  else if (trimStr out).isEmpty then .emptyLog
  else if !(strContains (lowerStr out) (lowerStr startupLit)) then .noStartup
  else
    match searchPos matchLocalPeerIdAt out with
    | none => .noPeerId
    | some (_, pid) =>
      let v := rs_validate_peer_id pid
      if !v.1 then .invalidPeer v.2
      else if countLines out < 2 then .crashedEarly
      else .pass

/- ## en/rs/02-tcp-transport/check.py -/

/-- `Connection to <p> closed gracefully`, the closed-rule pattern of
en/rs/02 with the bound remote peer id interpolated (re.escaped, hence a
literal substring search). -/
def closureLit (p : Str) : Str :=
  str "Connection to " ++ p ++ str " closed gracefully"

/-- One constructor per distinct outcome of `check_output` in en/rs/02. -/
inductive Rs02Outcome where
  | noLog
  | emptyLog
  | noStartup
  | noPeerId
  | invalidPeer (msg : Str)
  | noDial
  | invalidAddr (msg : Str)
  | noConnected
  | missingClosure (peer : Str)
  | crashedEarly
  | pass
deriving DecidableEq

/-- `check_output` of en/rs/02: startup, local peer id (extracted and
validated), dialed multiaddr (extracted and validated), connection
message binding the remote peer id, then the graceful-closure message
whose pattern interpolates that bound id; finally a minimum line count
of 3. -/
def rs02_check_output (le : Bool) (out : Str) : Rs02Outcome :=
  if !le then .noLog
  else if (trimStr out).isEmpty then .emptyLog
  else if !(strContains (lowerStr out) (lowerStr startupLit)) then .noStartup
  else
    match searchPos matchLocalPeerIdAt out with
    | none => .noPeerId
    | some (_, pid) =>
      let v := rs_validate_peer_id pid
      if !v.1 then .invalidPeer v.2
      else
        match searchPos matchDialingAt out with
        | none => .noDial
        | some (_, ma) =>
          let vm := rs_validate_multiaddr ma
          if !vm.1 then .invalidAddr vm.2
          else
            match searchPos (matchConnectedAt ma) out with
            | none => .noConnected
            | some (_, rp) =>
              if strContains out (closureLit rp) then
                if countLines out < 3 then .crashedEarly else .pass
              else .missingClosure rp

/- ## en/rs/03-ping-checkpoint/check.py -/

/-- `check_output` of en/rs/03 as a boolean verdict: startup, peer id
(extracted and validated), dialed multiaddr (extracted and validated),
connection message binding the remote peer id, `re.findall` of the ping
pattern for that peer, the round-trip-time loop (returns False on the
first value outside 0..10000; the capture is a digit run so Python `int`
cannot raise there), and a minimum line count of 4. -/
def rs03_check_output (le : Bool) (out : Str) : Bool :=
  if !le then false
  else if (trimStr out).isEmpty then false
  else if !(strContains (lowerStr out) (lowerStr startupLit)) then false
  else
    match searchPos matchLocalPeerIdAt out with
    | none => false
    | some (_, pid) =>
      if !(rs_validate_peer_id pid).1 then false
      else
        match searchPos matchDialingAt out with
        | none => false
        | some (_, ma) =>
          if !(rs_validate_multiaddr ma).1 then false
          else
            match searchPos (matchConnectedAt ma) out with
            | none => false
            | some (_, rp) =>
              let rtts := findAllPings rp out
              if rtts.isEmpty then false
              else if rtts.any (fun r => decide (10000 < r)) then false
              else if countLines out < 4 then false
              else true

/-- The round-trip times reported by the trace: the `re.findall` result
of the ping rule, under the bindings (dialed multiaddr, remote peer id)
the checker establishes; empty when those rules do not match. -/
def rs03_rtts (out : Str) : List Nat :=
  match searchPos matchDialingAt out with
  | none => []
  | some (_, ma) =>
    match searchPos (matchConnectedAt ma) out with
    | none => []
    | some (_, rp) => findAllPings rp out

/-- Trace position at which the dialing rule of en/rs/03 matches. -/
def rs03_dial_pos (out : Str) : Option Nat :=
  (searchPos matchDialingAt out).map (fun p => p.1)

/-- Trace position at which the connected rule of en/rs/03 matches (under
the multiaddr bound by the dialing rule). -/
def rs03_conn_pos (out : Str) : Option Nat :=
  match searchPos matchDialingAt out with
  | none => none
  | some (_, ma) => (searchPos (matchConnectedAt ma) out).map (fun p => p.1)

/-- Whether the connected rule of en/rs/03 matched at a strictly earlier
trace position than the dialing rule it follows. -/
def rs03_conn_before_dial (out : Str) : Bool :=
  match rs03_conn_pos out, rs03_dial_pos out with
  | some c, some d => decide (c < d)
  | _, _ => false

/-- No match of `m` exists at any position strictly before `i`. -/
def noEarlierMatch {α : Type} (m : Str → Option α) (out : Str) (i : Nat) : Bool :=
  (List.range i).all (fun j => (m (out.drop j)).isNone)

/- ## en/js/03-ping-protocol/check.py -/

/-- Pattern `incoming,([/\w.:]+),([/\w.:]+)` matched at the head of `s`. -/
def js03_matchIncomingAt (s : Str) : Option (Str × Str) :=
  match dropPrefixQ (str "incoming,") s with
  | none => none
  | some s1 =>
    let g1 := s1.takeWhile isMAChar
    if g1.isEmpty then none
    else
      match dropPrefixQ (str ",") (s1.drop g1.length) with
      | none => none
      | some s2 =>
        let g2 := s2.takeWhile isMAChar
        if g2.isEmpty then none else some (g1, g2)

/-- Pattern `connected,(12D3KooW[A-Za-z0-9]+),([/\w.:]+)` matched at the
head of `s`. -/
def js03_matchConnectedAt (s : Str) : Option (Str × Str) :=
  match dropPrefixQ (str "connected,") s with
  | none => none
  | some s1 =>
    match dropPrefixQ (str "12D3KooW") s1 with
    | none => none
    | some s2 =>
      let run := s2.takeWhile isAlnum
      if run.isEmpty then none
      else
        match dropPrefixQ (str ",") (s2.drop run.length) with
        | none => none
        | some s3 =>
          let g2 := s3.takeWhile isMAChar
          if g2.isEmpty then none else some (str "12D3KooW" ++ run, g2)

/-- Pattern `ping,(12D3KooW[A-Za-z0-9]+),(\d+\s*ms)` matched at the head
of `s`; only the first capture is used by the checker. -/
def js03_matchPingAt (s : Str) : Option Str :=
  match dropPrefixQ (str "ping,") s with
  | none => none
  | some s1 =>
    match dropPrefixQ (str "12D3KooW") s1 with
    | none => none
    | some s2 =>
      let run := s2.takeWhile isAlnum
      if run.isEmpty then none
      else
        match dropPrefixQ (str ",") (s2.drop run.length) with
        | none => none
        | some s3 =>
          let ds := s3.takeWhile Char.isDigit
          if ds.isEmpty then none
          else
            let s4 := (s3.drop ds.length).dropWhile isPyWS
            match dropPrefixQ (str "ms") s4 with
            | none => none
            | some _ => some (str "12D3KooW" ++ run)

/-- Pattern `closed,(12D3KooW[A-Za-z0-9]+)` matched at the head of `s`. -/
def js03_matchClosedAt (s : Str) : Option Str :=
  match dropPrefixQ (str "closed,") s with
  | none => none
  | some s1 =>
    match dropPrefixQ (str "12D3KooW") s1 with
    | none => none
    | some s2 =>
      let run := s2.takeWhile isAlnum
      if run.isEmpty then none else some (str "12D3KooW" ++ run)

/-- `check_output` of en/js/03 as a boolean verdict: incoming dial (both
multiaddrs validated), connected (peer id and multiaddr validated), ping
(peer id validated), closed; after the closed match the source
re-validates the peer id captured by the *connected* rule
(`connected_matches.group(1)`), which the model reproduces. -/
def js03_check_output (le : Bool) (out : Str) : Bool :=
  if !le then false
  else if (trimStr out).isEmpty then false
  else
    match searchPos js03_matchIncomingAt out with
    | none => false
    | some (_, (t, f)) =>
      if !(js03_validate_multiaddr t).1 then false
      else if !(js03_validate_multiaddr f).1 then false
      else
        match searchPos js03_matchConnectedAt out with
        | none => false
        | some (_, (cpid, fa)) =>
          if !(js03_validate_peer_id cpid).1 then false
          else if !(js03_validate_multiaddr fa).1 then false
          else
            match searchPos js03_matchPingAt out with
            | none => false
            | some (_, ppid) =>
              if !(js03_validate_peer_id ppid).1 then false
              else
                match searchPos js03_matchClosedAt out with
                | none => false
                | some _ =>
                  if !(js03_validate_peer_id cpid).1 then false
                  else true

/-- `sys.exit(0 if success else 1)` of en/js/03: `main` returns the
`check_output` verdict (its try/except cannot fire in the pure
pipeline). -/
def js03_exit (le : Bool) (out : Str) : Nat :=
  if js03_check_output le out then 0 else 1

/- ## ai_generated_lessons/03-ping-checkpoint/check.py -/

/-- Alternative `Checker peer id: (12D3KooW[A-Za-z0-9]+)` of the peer-id
pattern of the ai-generated lesson 03. -/
def matchCheckerPeerIdAt (s : Str) : Option Str :=
  match dropPrefixQ (str "Checker peer id: ") s with
  | none => none
  | some s1 =>
    match dropPrefixQ (str "12D3KooW") s1 with
    | none => none
    | some s2 =>
      let run := s2.takeWhile isAlnum
      if run.isEmpty then none else some (str "12D3KooW" ++ run)

/-- The alternation `Local peer id: (...)|Checker peer id: (...)`: at a
given position the left alternative is tried first. -/
def aig03_matchPeerIdAt (s : Str) : Option Str :=
  match matchLocalPeerIdAt s with
  | some r => some r
  | none => matchCheckerPeerIdAt s

def aig03_has_peer_id (out : Str) : Bool := (searchPos aig03_matchPeerIdAt out).isSome

/-- Rest of `s` after the first occurrence of the literal `lit`. -/
def afterFirst (lit : Str) (s : Str) : Option Str :=
  (searchPos (dropPrefixQ lit) s).map (fun p => p.2)

/-- Whether a single line yields a match of
`Ping successful to.*RTT.*|Ping response sent to.*RTT.*` (dot does not
cross newlines, so a line matches iff `RTT` occurs after the first
occurrence of one of the literals; the greedy trailing `.*` makes at most
one match per line). -/
def lineHasPing (ln : Str) : Bool :=
  (match afterFirst (str "Ping successful to") ln with
   | some r => strContains r (str "RTT")
   | none => false) ||
  (match afterFirst (str "Ping response sent to") ln with
   | some r => strContains r (str "RTT")
   | none => false)

/-- `len(re.findall(ping_success_pattern, output))` of the ai-generated
lesson 03. -/
def aig03_ping_count (out : Str) : Nat := (splitLines out).countP lineHasPing

/-- `re.search(r"Connected to:|Student connected:", output)` as an
existence test. -/
def aig03_conn_found (out : Str) : Bool :=
  strContains out (str "Connected to:") || strContains out (str "Student connected:")

def aig03_startup_ok (out : Str) : Bool :=
  strContains out (str "Starting Universal Connectivity application") ||
  strContains out (str "Starting ping checker server")

def aig03_checkpoint_confirmed (out : Str) : Bool :=
  strContains out (str "Checkpoint completed!") ||
  strContains out (str "SUCCESS: Ping checkpoint completed")

/-- One constructor per diagnostic print of `check_output` in the
ai-generated lesson 03 (the non-failure informational detail lines are
not separate rules and are folded into their rule's constructor). -/
inductive AigDiag where
  | noLogFile
  | checking
  | emptyLog
  | noStartup
  | pingCount (n : Nat)
  | noPing
  | connOk
  | noConn
  | checkpointOk
  | checkpointUnconfirmed
  | peerIdFound
  | peerIdMissing
deriving DecidableEq

/-- `check_output` of the ai-generated lesson 03, returning the verdict
together with the ordered diagnostics it prints; `le` is whether
stdout.log exists, `lc` the LOCAL_CHECKER setting.  Every `return False`
site stops evaluation immediately, exactly as in the source. -/
def aig03_check_output (le lc : Bool) (out : Str) : Bool × List AigDiag :=
  if !le then (false, [.noLogFile])
  else if (trimStr out).isEmpty then (false, [.checking, .emptyLog])
  else if !(aig03_startup_ok out) then (false, [.checking, .noStartup])
  else
    let n := aig03_ping_count out
    if n < 1 then (false, [.checking, .noPing])
    else if !(aig03_conn_found out) then (false, [.checking, .pingCount n, .noConn])
    else
      let d1 := [AigDiag.checking, .pingCount n, .connOk]
      let d2 :=
        if lc then
          if aig03_checkpoint_confirmed out then d1 ++ [.checkpointOk]
          else d1 ++ [.checkpointUnconfirmed]
        else d1
      let d3 :=
        if aig03_has_peer_id out then d2 ++ [.peerIdFound]
        else d2 ++ [.peerIdMissing]
      (true, d3)

/-- What `subprocess.run` of docker compose does on a given invocation:
completes with a return code, exceeds the 180-second timeout, or raises
some other exception.  This is the external input of the orchestration
adapter. -/
inductive DockerEnv where
  | completes (rc : Int)
  | timesOut
  | raises
deriving DecidableEq

/-- One constructor per failure diagnostic of `run_docker_compose`. -/
inductive OrchDiag where
  | composeFailed (rc : Int)
  | timedOut
  | runError
deriving DecidableEq

/-- The `timeout=180` argument passed to `subprocess.run` by
`run_docker_compose`. -/
def aig03_timeout_seconds : Nat := 180

/-- `run_docker_compose` of the ai-generated lesson 03: success flag plus
the orchestration-failure diagnostics it prints (empty on success). -/
def aig03_run_docker_compose : DockerEnv → Bool × List OrchDiag
  | .completes rc => if rc = 0 then (true, []) else (false, [.composeFailed rc])
  | .timesOut => (false, [.timedOut])
  | .raises => (false, [.runError])

/-- Observable behaviour of one run of `main` in the ai-generated
lesson 03. -/
structure Aig03Run where
  exitCode : Nat
  checkOutputInvoked : Bool
  cleanupRan : Bool
  orchFailDiags : List OrchDiag
deriving DecidableEq

/-- `main` of the ai-generated lesson 03 followed by
`sys.exit(0 if success else 1)`: docker compose first (its failure
short-circuits before `check_output` is reached), then trace analysis;
the `finally: cleanup()` clause runs on every path. -/
def aig03_main (de : DockerEnv) (le lc : Bool) (out : Str) : Aig03Run :=
  let d := aig03_run_docker_compose de
  { exitCode := if d.1 && (aig03_check_output le lc out).1 then 0 else 1
  , checkOutputInvoked := d.1
  , cleanupRan := true
  , orchFailDiags := d.2 }

/- ## Concrete trace material used by counterexamples and witnesses -/

/-- A well-formed Ed25519-style peer id: 12D3KooW prefix, 52 characters,
base58 alphabet. -/
def idA : Str := str "12D3KooWABCDEFGHJKLMNPQRSTUVWXYZabcdefghijkmnopqrstu"

/-- A second well-formed peer id, differing from `idA`. -/
def idB : Str := str "12D3KooWBBCDEFGHJKLMNPQRSTUVWXYZabcdefghijkmnopqrstu"

/-- A third well-formed peer id, differing from both. -/
def idC : Str := str "12D3KooWCBCDEFGHJKLMNPQRSTUVWXYZabcdefghijkmnopqrstu"

/-- A string shaped like a peer id but with the wrong prefix 12D3KooX. -/
def idX : Str := str "12D3KooXABCDEFGHJKLMNPQRSTUVWXYZabcdefghijkmnopqrstu"

/-- A string violating only the alphabet condition: 12D3KooW prefix,
length 52, and a single disallowed character 0. -/
def idZero : Str := str "12D3KooW0BCDEFGHJKLMNPQRSTUVWXYZabcdefghijkmnopqrstu"

/-- A trace for en/rs/03 in which the Connected line occurs *before* the
Dialing line it cross-references, every token being valid. -/
def cx1 : Str :=
  str "Starting Universal Connectivity Application\nLocal peer id: " ++ idA ++
  str "\nConnected to: " ++ idB ++
  str " via /ip4/1.2.3.4/tcp/9000\nDialing: /ip4/1.2.3.4/tcp/9000\nReceived a ping from " ++
  idB ++ str ", round trip time: 10 ms\n"

/-- A small well-ordered trace for the search-position witnesses. -/
def cx1w : Str :=
  str "Local peer id: " ++ idA ++ str "\nDialing: /ip4/9.9.9.9/tcp/1234\nConnected to: " ++
  idB ++ str " via /ip4/9.9.9.9/tcp/1234\n"

/-- A trace for en/rs/02 whose Connected event binds `idB` while the
closure line names the different peer `idC`. -/
def cx2 : Str :=
  str "Starting Universal Connectivity Application\nLocal peer id: " ++ idA ++
  str "\nDialing: /ip4/5.6.7.8/tcp/9001\nConnected to: " ++ idB ++
  str " via /ip4/5.6.7.8/tcp/9001\nConnection to " ++ idC ++ str " closed gracefully\n"

/-- A trace for en/rs/01 with the startup line and a local-peer-id line
whose identifier has the wrong prefix 12D3KooX but is otherwise
well-formed. -/
def cx5 : Str :=
  str "Starting Universal Connectivity Application\nLocal peer id: " ++ idX ++ str "\n"

/-- A trace for the ai-generated lesson 03 with startup and one
successful ping exchange but no connection-establishment line. -/
def cx6 : Str :=
  str "Starting ping checker server\nPing successful to peer RTT 5 ms\n"

/-- A well-ordered trace for en/rs/03 whose single reported round-trip
time is 20000 ms. -/
def cx10 : Str :=
  str "Starting Universal Connectivity Application\nLocal peer id: " ++ idA ++
  str "\nDialing: /ip4/1.2.3.4/tcp/9000\nConnected to: " ++ idB ++
  str " via /ip4/1.2.3.4/tcp/9000\nReceived a ping from " ++ idB ++
  str ", round trip time: 20000 ms\n"

/-- A fully passing trace for en/rs/03 (round-trip time 10 ms). -/
def cx10ok : Str := cx1

/-- A relayed multiaddr containing the /p2p-circuit marker together with
an /ip4 head and an embedded /p2p/ segment. -/
def maCircuit : Str := str "/ip4/1.2.3.4/tcp/4001/p2p/" ++ idA ++ str "/p2p-circuit"

/-- The bare /p2p-circuit marker as an address string. -/
def maBare : Str := str "/p2p-circuit"


/-- Character at index `n` (used to separate distinct diagnostic
texts). -/
def nthChar (n : Nat) (l : Str) : Option Char := l.get? n

/-- The validator outcomes reachable for an extracted peer id: success,
the length failure, or the alphabet failure at the first disallowed
character — everything except the prefix failure. -/
def rs01_nonprefix_outcome (p : Str) : Bool :=
  decide (rs_validate_peer_id p = (true, str "Valid peer ID format: " ++ p)) ||
  decide (rs_validate_peer_id p = (false, peer_length_msg p)) ||
  (match firstNonB58 p with
   | some c => decide (rs_validate_peer_id p = (false, peer_alpha_msg c))
   | none => false)

/- ## Helper lemmas -/

/-- `searchPos` returns the least matching position: the match holds
there and no strictly earlier position matches. -/
theorem searchPos_spec {α : Type} (m : Str → Option α) :
    ∀ (out : Str) (i : Nat) (a : α), searchPos m out = some (i, a) →
      m (List.drop i out) = some a ∧ ∀ j, j < i → m (List.drop j out) = none := by
  intro out
  induction out with
  | nil =>
    intro i a h
    cases hm : m [] with
    | none => simp [searchPos, hm] at h
    | some b =>
      simp [searchPos, hm] at h
      obtain ⟨hi, hb⟩ := h
      subst hi
      subst hb
      exact ⟨by simpa using hm, fun j hj => absurd hj (Nat.not_lt_zero j)⟩
  | cons c t ih =>
    intro i a h
    cases hm : m (c :: t) with
    | some b =>
      simp [searchPos, hm] at h
      obtain ⟨hi, hb⟩ := h
      subst hi
      subst hb
      exact ⟨by simpa using hm, fun j hj => absurd hj (Nat.not_lt_zero j)⟩
    | none =>
      have h' : (searchPos m t).map (fun p => (p.1 + 1, p.2)) = some (i, a) := by
        simpa [searchPos, hm] using h
      rcases hsp : searchPos m t with _ | ⟨i', a'⟩
      · rw [hsp] at h'
        simp at h'
      · rw [hsp] at h'
        simp only [Option.map_some'] at h'
        injection h' with h''
        rw [Prod.mk.injEq] at h''
        obtain ⟨hi, ha⟩ := h''
        subst hi
        subst ha
        obtain ⟨h1, h2⟩ := ih i' a' hsp
        refine ⟨by simpa using h1, ?_⟩
        intro j hj
        cases j with
        | zero => simpa using hm
        | succ k =>
          have hk : k < i' := Nat.lt_of_succ_lt_succ hj
          simpa using h2 k hk

/-- Boolean form of the no-earlier-match part of `searchPos_spec`. -/
theorem searchPos_noEarlier {α : Type} (m : Str → Option α) (out : Str) (i : Nat)
    (a : α) (h : searchPos m out = some (i, a)) : noEarlierMatch m out i = true := by
  have hs := (searchPos_spec m out i a h).2
  unfold noEarlierMatch
  rw [List.all_eq_true]
  intro j hj
  have hj' : j < i := List.mem_range.1 hj
  simp [hs j hj']

/-- A literal that is a prefix of some suffix of `out` is a substring of
`out`. -/
theorem strContains_of_isPrefixOf_drop (n : Str) :
    ∀ (out : Str) (j : Nat), n.isPrefixOf (List.drop j out) = true →
      strContains out n = true := by
  intro out
  induction out with
  | nil =>
    intro j h
    rw [List.drop_nil] at h
    cases n with
    | nil => simp [strContains]
    | cons c t => simp [List.isPrefixOf] at h
  | cons c t ih =>
    intro j h
    cases j with
    | zero =>
      rw [List.drop_zero] at h
      simp [strContains, h]
    | succ k =>
      rw [List.drop_succ_cons] at h
      have := ih k h
      simp [strContains, this]

/-- The alphabet scan succeeds exactly when no character lies outside the
base58 alphabet. -/
theorem allB58_iff_firstNonB58 (p : Str) : allB58 p = true ↔ firstNonB58 p = none := by
  unfold allB58 firstNonB58
  rw [List.all_eq_true, List.find?_eq_none]
  constructor
  · intro h x hx
    have hc := h x hx
    simp only [hc, Bool.not_true]
    simp
  · intro h x hx
    have hc := h x hx
    simpa using hc

/-- Any capture of the `Local peer id:` pattern carries the literal
12D3KooW prefix. -/
theorem matchLocalPeerIdAt_shape (s pid : Str) (h : matchLocalPeerIdAt s = some pid) :
    ∃ run : Str, pid = str "12D3KooW" ++ run := by
  unfold matchLocalPeerIdAt at h
  split at h
  · simp at h
  · split at h
    · simp at h
    · dsimp only [] at h
      split at h
      · simp at h
      · injection h with h'
        exact ⟨_, h'.symm⟩

/-- A match of the `Local peer id:` pattern forces the literal 12D3KooW
to occur 15 characters into the scanned suffix. -/
theorem matchLocalPeerIdAt_requires_lit (s : Str) (pid : Str)
    (h : matchLocalPeerIdAt s = some pid) :
    (str "12D3KooW").isPrefixOf (List.drop 15 s) = true := by
  unfold matchLocalPeerIdAt at h
  split at h
  · simp at h
  · rename_i s1 heq1
    split at h
    · simp at h
    · rename_i s2 heq2
      unfold dropPrefixQ at heq1 heq2
      split at heq1
      · rename_i hp1
        injection heq1 with heq1'
        split at heq2
        · rename_i hp2
          rw [← heq1'] at hp2
          simpa using hp2
        · simp at heq2
      · simp at heq1

/- ## Claims -/

/-- C3, counterexample.  The claim asserts that every address containing
the p2p-circuit marker validates successfully under requireCircuit:true;
the bare marker string refutes this: it contains the marker yet
`validate_multiaddr` with `require_circuit=True` rejects it (it does not
start with /ip4/ or /ip6/). -/
theorem claim3_counterexample :
    strContains maBare (str "/p2p-circuit") = true ∧
    (js04_validate_multiaddr maBare true).1 = false := by
  decide

/-- C3, amended.  For every address containing the /p2p-circuit marker,
validation with requireCircuit:false always fails, and validation with
requireCircuit:true succeeds exactly when the address also starts with
/ip4/ or /ip6/ and contains an embedded /p2p/ segment. -/
theorem claim3_theorem (a : Str) (h : strContains a (str "/p2p-circuit") = true) :
    (js04_validate_multiaddr a false).1 = false ∧
    (js04_validate_multiaddr a true).1 =
      (((str "/ip4/").isPrefixOf a || (str "/ip6/").isPrefixOf a) &&
        strContains a (str "/p2p/")) := by
  have hne : a.isEmpty = false := by
    cases a with
    | nil => exact absurd h (by decide)
    | cons c t => simp
  cases h1 : (str "/ip4/").isPrefixOf a <;>
    cases h2 : (str "/ip6/").isPrefixOf a <;>
      cases h3 : strContains a (str "/p2p/") <;>
        simp [js04_validate_multiaddr, hne, h1, h2, h3, h]

/-- C3, witness for the amended theorem: a relayed address with /ip4
head, /p2p/ segment and the /p2p-circuit marker fails the
requireCircuit:false validation and passes the requireCircuit:true
one. -/
theorem claim3_witness :
    (js04_validate_multiaddr maCircuit false).1 = false ∧
    (js04_validate_multiaddr maCircuit true).1 = true := by
  have h := claim3_theorem maCircuit (by decide)
  refine ⟨h.1, ?_⟩
  rw [h.2]
  decide

/-- Success condition of the en/js/03 peer-id validator. -/
theorem js03_validate_ok_iff (p : Str) :
    (js03_validate_peer_id p).1 = true ↔
      ((str "12D3KooW").isPrefixOf p = true ∧ 45 ≤ p.length ∧ p.length ≤ 60 ∧
        allB58 p = true) := by
  unfold js03_validate_peer_id
  rw [allB58_iff_firstNonB58]
  cases hpf : (str "12D3KooW").isPrefixOf p <;>
    by_cases h45 : p.length < 45 <;>
      by_cases h60 : 60 < p.length <;>
        cases hfb : firstNonB58 p <;>
          simp [hpf, h45, h60, hfb] <;> omega

/-- Success condition of the en/py/07 peer-id validator. -/
theorem py07_validate_ok_iff (p : Str) :
    (py07_validate_peer_id p).1 = true ↔
      (((str "12D3KooW").isPrefixOf p = true ∨ (str "16Uiu2HAm").isPrefixOf p = true) ∧
        45 ≤ p.length ∧ p.length ≤ 60 ∧ allB58 p = true) := by
  unfold py07_validate_peer_id
  rw [allB58_iff_firstNonB58]
  cases hp1 : (str "12D3KooW").isPrefixOf p <;>
    cases hp2 : (str "16Uiu2HAm").isPrefixOf p <;>
      by_cases h45 : p.length < 45 <;>
        by_cases h60 : 60 < p.length <;>
          cases hfb : firstNonB58 p <;>
            simp [hp1, hp2, h45, h60, hfb] <;> omega

/-- Success condition of the en/js/04 peer-id validator (without an
expected value). -/
theorem js04_validate_ok_iff (p : Str) :
    (js04_validate_peer_id p none).1 = true ↔
      ((str "12D3KooW").isPrefixOf p = true ∧ 45 ≤ p.length ∧ p.length ≤ 60 ∧
        allB58 p = true) := by
  unfold js04_validate_peer_id
  cases hne : p.isEmpty <;>
    cases hpf : (str "12D3KooW").isPrefixOf p <;>
      by_cases h45 : 45 ≤ p.length <;>
        by_cases h60 : p.length ≤ 60 <;>
          cases hab : allB58 p <;>
            simp [hne, hpf, h45, h60, hab] <;>
              first
              | omega
              | (cases p <;> simp_all <;> omega)

/-- C4, amended.  Each peer-id validator succeeds iff the string has a
recognized prefix (12D3KooW; also 16Uiu2HAm in the en/py/07 variant),
length within 45..60, and only base58 characters; when exactly one
condition is violated the failure message is the corresponding one, with
the first disallowed character identified by the en/js/03 and en/py/07
validators but not by the en/js/04 validator, whose alphabet failure is
a fixed text naming no character. -/
theorem claim4_theorem (p : Str) (c : Char) :
    ((js03_validate_peer_id p).1 = true ↔
      ((str "12D3KooW").isPrefixOf p = true ∧ 45 ≤ p.length ∧ p.length ≤ 60 ∧
        allB58 p = true))
  ∧ ((py07_validate_peer_id p).1 = true ↔
      (((str "12D3KooW").isPrefixOf p = true ∨ (str "16Uiu2HAm").isPrefixOf p = true) ∧
        45 ≤ p.length ∧ p.length ≤ 60 ∧ allB58 p = true))
  ∧ ((js04_validate_peer_id p none).1 = true ↔
      ((str "12D3KooW").isPrefixOf p = true ∧ 45 ≤ p.length ∧ p.length ≤ 60 ∧
        allB58 p = true))
  ∧ ((str "12D3KooW").isPrefixOf p = false → 45 ≤ p.length → p.length ≤ 60 →
      allB58 p = true →
      js03_validate_peer_id p = (false, peer_prefix_msg p) ∧
      js04_validate_peer_id p none =
        (false, str "PeerId does not start with \x2712D3KooW\x27 (expected Ed25519 PeerId)."))
  ∧ ((str "12D3KooW").isPrefixOf p = false → (str "16Uiu2HAm").isPrefixOf p = false →
      45 ≤ p.length → p.length ≤ 60 → allB58 p = true →
      py07_validate_peer_id p =
        (false, str "Invalid peer ID format. Expected to start with one of [\x2712D3KooW\x27, \x2716Uiu2HAm\x27], got: " ++ p))
  ∧ ((str "12D3KooW").isPrefixOf p = true → ¬(45 ≤ p.length ∧ p.length ≤ 60) →
      allB58 p = true →
      js03_validate_peer_id p = (false, peer_length_msg p) ∧
      py07_validate_peer_id p = (false, peer_length_msg p) ∧
      js04_validate_peer_id p none =
        (false, str "PeerId length invalid: " ++ natToStr p.length ++
          str " (should be 45-60 chars)"))
  ∧ ((str "12D3KooW").isPrefixOf p = true → 45 ≤ p.length → p.length ≤ 60 →
      firstNonB58 p = some c →
      js03_validate_peer_id p = (false, peer_alpha_msg c) ∧
      py07_validate_peer_id p = (false, peer_alpha_msg c) ∧
      js04_validate_peer_id p none =
        (false, str "PeerId contains non-base58 characters.")) := by
  have hall := allB58_iff_firstNonB58 p
  refine ⟨js03_validate_ok_iff p, py07_validate_ok_iff p, js04_validate_ok_iff p,
    ?_, ?_, ?_, ?_⟩
  · intro hpf h45 h60 hab
    have hne : p.isEmpty = false := by
      cases p with
      | nil => simp at h45
      | cons x t => simp
    constructor
    · unfold js03_validate_peer_id
      simp [hpf]
    · unfold js04_validate_peer_id
      simp [hne, hpf, h45, h60, hab]
  · intro hp1 hp2 h45 h60 hab
    unfold py07_validate_peer_id
    simp [hp1, hp2]
  · intro hpf hlen hab
    have hne : p.isEmpty = false := by
      cases p with
      | nil => exact absurd hpf (by decide)
      | cons x t => simp
    have hcase : p.length < 45 ∨ 60 < p.length := by omega
    refine ⟨?_, ?_, ?_⟩
    · unfold js03_validate_peer_id
      rcases hcase with hlt | hgt
      · simp [hpf, hlt]
      · simp [hpf, hgt]
    · unfold py07_validate_peer_id
      rcases hcase with hlt | hgt
      · simp [hpf, hlt]
      · simp [hpf, hgt]
    · unfold js04_validate_peer_id
      rcases hcase with hlt | hgt
      · have h45' : ¬45 ≤ p.length := by omega
        simp [hne, h45']
      · have h60' : ¬p.length ≤ 60 := by omega
        simp [hne, h60']
  · intro hpf h45 h60 hfb
    have hne : p.isEmpty = false := by
      cases p with
      | nil => exact absurd hpf (by decide)
      | cons x t => simp
    have hib : allB58 p = false := by
      cases hb : allB58 p with
      | false => rfl
      | true => exact absurd (hall.1 hb) (by simp [hfb])
    have h45' : ¬p.length < 45 := by omega
    have h60' : ¬60 < p.length := by omega
    refine ⟨?_, ?_, ?_⟩
    · unfold js03_validate_peer_id
      simp [hpf, h45', h60', hfb]
    · unfold py07_validate_peer_id
      simp [hpf, h45', h60', hfb]
    · unfold js04_validate_peer_id
      simp [hne, hpf, h45, h60, hib]

/-- C4, counterexample.  On a string violating only the alphabet
condition (first disallowed character is the digit 0), the en/js/04
validator fails with a fixed message that does not identify the
character, refuting the claim that the BadAlphabet failure always
identifies the first disallowed character. -/
theorem claim4_counterexample :
    firstNonB58 idZero = some '0' ∧
    js04_validate_peer_id idZero none =
      (false, str "PeerId contains non-base58 characters.") ∧
    (str "PeerId contains non-base58 characters.").contains '0' = false := by
  decide

/-- C4, witness for the amended theorem: at the alphabet-only violation
`idZero` the en/js/03 validator names the character 0 while the en/js/04
validator does not, and at the prefix-only violation `idX` the en/py/07
validator returns its two-prefix mismatch message. -/
theorem claim4_witness :
    (js03_validate_peer_id idZero = (false, peer_alpha_msg '0') ∧
     py07_validate_peer_id idZero = (false, peer_alpha_msg '0') ∧
     js04_validate_peer_id idZero none =
       (false, str "PeerId contains non-base58 characters.")) ∧
    py07_validate_peer_id idX =
      (false, str "Invalid peer ID format. Expected to start with one of [\x2712D3KooW\x27, \x2716Uiu2HAm\x27], got: " ++ idX) := by
  refine ⟨?_, ?_⟩
  · exact (claim4_theorem idZero '0').2.2.2.2.2.2 (by decide) (by decide) (by decide)
      (by decide)
  · exact (claim4_theorem idX '0').2.2.2.2.1 (by decide) (by decide) (by decide)
      (by decide) (by decide)

/-- C1, counterexample.  The claim asserts the scan cursor never rewinds,
so rule i+1 can never be satisfied by an event earlier than rule i's
match.  In trace `cx1` the Connected line precedes the Dialing line it
cross-references, yet the en/rs/03 checker matches the connected rule at
position 112, before the dialing rule's match at position 205, and the
whole check passes. -/
theorem claim1_counterexample :
    rs03_check_output true cx1 = true ∧ rs03_conn_before_dial cx1 = true := by
  decide

/-- C1, amended.  Each rule's search scans the entire trace from
position 0 (there is no carried cursor): the position a rule matches at
is the least position in the whole trace at which its pattern matches,
independent of where earlier rules matched; consequently a later rule's
event may lie strictly before an earlier rule's event. -/
theorem claim1_theorem :
    ∀ (out ma : Str) (i j k : Nat) (pid a rp : Str),
      (searchPos matchLocalPeerIdAt out = some (i, pid) →
        matchLocalPeerIdAt (List.drop i out) = some pid ∧
        noEarlierMatch matchLocalPeerIdAt out i = true)
    ∧ (searchPos matchDialingAt out = some (j, a) →
        matchDialingAt (List.drop j out) = some a ∧
        noEarlierMatch matchDialingAt out j = true)
    ∧ (searchPos (matchConnectedAt ma) out = some (k, rp) →
        matchConnectedAt ma (List.drop k out) = some rp ∧
        noEarlierMatch (matchConnectedAt ma) out k = true) := by
  intro out ma i j k pid a rp
  exact ⟨fun h => ⟨(searchPos_spec _ out i pid h).1, searchPos_noEarlier _ out i pid h⟩,
         fun h => ⟨(searchPos_spec _ out j a h).1, searchPos_noEarlier _ out j a h⟩,
         fun h => ⟨(searchPos_spec _ out k rp h).1, searchPos_noEarlier _ out k rp h⟩⟩

/-- C1, witness for the amended theorem on the concrete trace `cx1w`:
the three rules of en/rs/03 match at positions 0, 68 and 99, each being
the least matching position of its own pattern. -/
theorem claim1_witness :
    (matchLocalPeerIdAt (List.drop 0 cx1w) = some idA ∧
      noEarlierMatch matchLocalPeerIdAt cx1w 0 = true) ∧
    (matchDialingAt (List.drop 68 cx1w) = some (str "/ip4/9.9.9.9/tcp/1234") ∧
      noEarlierMatch matchDialingAt cx1w 68 = true) ∧
    (matchConnectedAt (str "/ip4/9.9.9.9/tcp/1234") (List.drop 99 cx1w) = some idB ∧
      noEarlierMatch (matchConnectedAt (str "/ip4/9.9.9.9/tcp/1234")) cx1w 99 = true) := by
  have h := claim1_theorem cx1w (str "/ip4/9.9.9.9/tcp/1234") 0 68 99 idA
    (str "/ip4/9.9.9.9/tcp/1234") idB
  exact ⟨h.1 (by decide), h.2.1 (by decide), h.2.2 (by decide)⟩

/-- C2, counterexample.  A trace in which the Connected event binds
`idB` and the closure line names the different peer `idC` makes the
en/rs/02 checker fail with its missing-closure outcome, which names only
the expected peer — not with an IdentifierMismatch carrying both
values. -/
theorem claim2_counterexample :
    idC ≠ idB ∧ rs02_check_output true cx2 = Rs02Outcome.missingClosure idB := by
  decide

/-- C2, amended.  When the rules up to Connected succeed and bind the
remote peer id `rp`, and the trace contains no literal
`Connection to <rp> closed gracefully` line (in particular when the
closure line names a different peer), the en/rs/02 checker reports the
closed rule as a missing message naming only `rp` (a NotFound-style
failure); no outcome of the checker carries both an expected and an
actual identifier. -/
theorem claim2_theorem (out : Str) (i1 i2 i3 : Nat) (pid ma rp : Str)
    (hts : (trimStr out).isEmpty = false)
    (hst : strContains (lowerStr out) (lowerStr startupLit) = true)
    (hpid : searchPos matchLocalPeerIdAt out = some (i1, pid))
    (hvp : (rs_validate_peer_id pid).1 = true)
    (hdial : searchPos matchDialingAt out = some (i2, ma))
    (hvm : (rs_validate_multiaddr ma).1 = true)
    (hconn : searchPos (matchConnectedAt ma) out = some (i3, rp))
    (hcl : strContains out (closureLit rp) = false) :
    rs02_check_output true out = Rs02Outcome.missingClosure rp := by
  unfold rs02_check_output
  simp [hts, hst, hpid, hvp, hdial, hvm, hconn, hcl]

/-- C2, witness for the amended theorem at the concrete trace `cx2`. -/
theorem claim2_witness : rs02_check_output true cx2 = Rs02Outcome.missingClosure idB :=
  claim2_theorem cx2 44 112 143 idA (str "/ip4/5.6.7.8/tcp/9001") idB
    (by decide) (by decide) (by decide) (by decide) (by decide) (by decide)
    (by decide) (by decide)

/-- The length diagnostic and the prefix diagnostic are distinct texts
(they differ at their first character). -/
theorem peer_length_ne_prefix_msg (p q : Str) : peer_length_msg p ≠ peer_prefix_msg q := by
  intro h
  have h0 := congrArg (nthChar 0) h
  have e1 : nthChar 0 (peer_length_msg p) = some 'P' := rfl
  have e2 : nthChar 0 (peer_prefix_msg q) = some 'I' := rfl
  rw [e1, e2] at h0
  exact absurd h0 (by decide)

/-- The alphabet diagnostic and the prefix diagnostic are distinct texts
(they differ at index 8). -/
theorem peer_alpha_ne_prefix_msg (c : Char) (q : Str) : peer_alpha_msg c ≠ peer_prefix_msg q := by
  intro h
  have h8 := congrArg (nthChar 8) h
  have e1 : nthChar 8 (peer_alpha_msg c) = some 'c' := rfl
  have e2 : nthChar 8 (peer_prefix_msg q) = some 'p' := rfl
  rw [e1, e2] at h8
  exact absurd h8 (by decide)

/-- C5, counterexample.  On a trace with the startup line and a
local-peer-id line whose identifier starts with 12D3KooX, the en/rs/01
checker fails with its missing-peer-id outcome (the extraction pattern
requires the literal 12D3KooW and never matches), not with a
PrefixMismatch token failure; `validate_peer_id` is never reached. -/
theorem claim5_counterexample :
    rs01_check_output true cx5 = Rs01Outcome.noPeerId ∧
    rs01_check_output true cx5 ≠ Rs01Outcome.invalidPeer (peer_prefix_msg idX) := by
  decide

/-- C5, amended.  If the trace contains the startup banner but nowhere
contains the literal 12D3KooW, the peer-id extraction pattern cannot
match, so the en/rs/01 checker reports the missing-peer-id failure (and
hence fails overall); the validator's prefix branch is unreachable on
such traces. -/
theorem claim5_theorem (out : Str)
    (hts : (trimStr out).isEmpty = false)
    (hst : strContains (lowerStr out) (lowerStr startupLit) = true)
    (hnw : strContains out (str "12D3KooW") = false) :
    rs01_check_output true out = Rs01Outcome.noPeerId := by
  have hsp : searchPos matchLocalPeerIdAt out = none := by
    cases hs : searchPos matchLocalPeerIdAt out with
    | none => rfl
    | some p =>
      obtain ⟨i, pid⟩ := p
      have h1 := (searchPos_spec _ out i pid hs).1
      have h2 := matchLocalPeerIdAt_requires_lit _ _ h1
      rw [List.drop_drop] at h2
      have h3 := strContains_of_isPrefixOf_drop _ out _ h2
      simp [h3] at hnw
  unfold rs01_check_output
  simp [hts, hst, hsp]

/-- C5, witness for the amended theorem at the concrete 12D3KooX
trace. -/
theorem claim5_witness : rs01_check_output true cx5 = Rs01Outcome.noPeerId :=
  claim5_theorem cx5 (by decide) (by decide) (by decide)

/-- C9.  Any peer id captured by the pattern
`Local peer id: (12D3KooW[A-Za-z0-9]+)` necessarily starts with
12D3KooW, so the prefix-mismatch branch of `validate_peer_id` is
unreachable for extracted identifiers: validation can only succeed or
fail on length or alphabet grounds. -/
theorem claim9_theorem (out : Str) (i : Nat) (pid : Str)
    (h : searchPos matchLocalPeerIdAt out = some (i, pid)) :
    (str "12D3KooW").isPrefixOf pid = true ∧
    rs_validate_peer_id pid ≠ (false, peer_prefix_msg pid) ∧
    rs01_nonprefix_outcome pid = true := by
  have h1 := (searchPos_spec _ out i pid h).1
  obtain ⟨run, hrun⟩ := matchLocalPeerIdAt_shape _ _ h1
  have hpf : (str "12D3KooW").isPrefixOf pid = true := by
    rw [hrun, List.isPrefixOf_iff_prefix]
    exact List.prefix_append _ _
  refine ⟨hpf, ?_, ?_⟩
  · unfold rs_validate_peer_id
    simp only [hpf, Bool.not_true, Bool.false_eq_true, if_false]
    by_cases h45 : pid.length < 45
    · simp only [h45]
      simp
      intro hb
      exact absurd hb (peer_length_ne_prefix_msg _ _)
    · by_cases h60 : 60 < pid.length
      · simp [h45, h60]
        intro hb
        exact absurd hb (peer_length_ne_prefix_msg _ _)
      · simp only [h45, h60]
        simp
        cases hfb : firstNonB58 pid with
        | none => simp
        | some c =>
          simp
          intro hb
          exact absurd hb (peer_alpha_ne_prefix_msg _ _)
  · unfold rs01_nonprefix_outcome
    unfold rs_validate_peer_id
    simp only [hpf, Bool.not_true, Bool.false_eq_true, if_false]
    by_cases h45 : pid.length < 45
    · simp [h45]
    · by_cases h60 : 60 < pid.length
      · simp [h45, h60]
      · simp only [h45, h60]
        cases hfb : firstNonB58 pid with
        | none => simp
        | some c => simp

/-- C9, witness: the peer id extracted at position 0 of `cx1w` starts
with 12D3KooW and its validation cannot be the prefix failure. -/
theorem claim9_witness :
    (str "12D3KooW").isPrefixOf idA = true ∧
    rs_validate_peer_id idA ≠ (false, peer_prefix_msg idA) ∧
    rs01_nonprefix_outcome idA = true :=
  claim9_theorem cx1w 0 idA (by decide)

/-- C6, counterexample.  On a trace where the required
connection-establishment rule fails, the ai-generated lesson 03 checker
returns immediately: the subsequent optional checkpoint-completion and
peer-id rules are never evaluated and produce no diagnostic lines,
refuting the claim that subsequent optional rules are still evaluated. -/
theorem claim6_counterexample :
    aig03_check_output true true cx6 =
      (false, [AigDiag.checking, AigDiag.pingCount 1, AigDiag.noConn]) ∧
    (aig03_check_output true true cx6).2.contains AigDiag.checkpointOk = false ∧
    (aig03_check_output true true cx6).2.contains AigDiag.checkpointUnconfirmed = false ∧
    (aig03_check_output true true cx6).2.contains AigDiag.peerIdFound = false ∧
    (aig03_check_output true true cx6).2.contains AigDiag.peerIdMissing = false := by
  decide

/-- C6, amended.  When a required rule fails, `check_output` returns
False at once: on any trace passing the startup and ping rules but
missing the connection rule, the result is failure with exactly the
diagnostics emitted up to that rule, and the later optional rules
(checkpoint confirmation, peer id) contribute no diagnostics; the
verdict is fail and is never flipped back. -/
theorem claim6_theorem (out : Str) (n : Nat)
    (hts : (trimStr out).isEmpty = false)
    (hst : aig03_startup_ok out = true)
    (hn : aig03_ping_count out = n)
    (hpos : 0 < n)
    (hconn : aig03_conn_found out = false) :
    aig03_check_output true true out =
      (false, [AigDiag.checking, AigDiag.pingCount n, AigDiag.noConn]) := by
  have hlt : ¬(n < 1) := by omega
  unfold aig03_check_output
  simp [hts, hst, hn, hconn, hlt]

/-- C6, witness for the amended theorem at the concrete trace `cx6`. -/
theorem claim6_witness :
    aig03_check_output true true cx6 =
      (false, [AigDiag.checking, AigDiag.pingCount 1, AigDiag.noConn]) :=
  claim6_theorem cx6 1 (by decide) (by decide) (by decide) (by decide) (by decide)

/-- C7.  The en/js/03 checker exits 0 exactly when `check_output`
passes and 1 exactly when it fails; the ai-generated lesson 03 checker
exits 0 exactly when orchestration succeeded and `check_output` passed,
and 1 on any required-rule failure or orchestration error. -/
theorem claim7_theorem :
    ∀ (le lc : Bool) (out out2 : Str) (de : DockerEnv),
      (js03_exit le out = 0 ↔ js03_check_output le out = true)
    ∧ (js03_exit le out = 1 ↔ js03_check_output le out = false)
    ∧ ((aig03_main de le lc out2).exitCode = 0 ↔
        ((aig03_run_docker_compose de).1 = true ∧ (aig03_check_output le lc out2).1 = true))
    ∧ ((aig03_main de le lc out2).exitCode = 1 ↔
        ((aig03_run_docker_compose de).1 = false ∨ (aig03_check_output le lc out2).1 = false)) := by
  intro le lc out out2 de
  unfold js03_exit aig03_main
  cases hc : js03_check_output le out <;>
    cases hd : (aig03_run_docker_compose de).1 <;>
      cases ha : (aig03_check_output le lc out2).1 <;>
        simp [hc, hd, ha]

/-- C8.  When docker compose times out, the ai-generated lesson 03
checker records the single timed-out orchestration diagnostic, never
invokes `check_output`, exits 1, and still runs cleanup; cleanup runs on
every exit path, and the configured timeout (180 seconds) lies in the
120..180 range the spec names. -/
theorem claim8_theorem :
    ∀ (le lc : Bool) (out : Str) (de : DockerEnv),
      aig03_main DockerEnv.timesOut le lc out =
        { exitCode := 1, checkOutputInvoked := false, cleanupRan := true,
          orchFailDiags := [OrchDiag.timedOut] }
    ∧ (aig03_main de le lc out).cleanupRan = true
    ∧ 120 ≤ aig03_timeout_seconds ∧ aig03_timeout_seconds ≤ 180 := by
  intro le lc out de
  refine ⟨rfl, rfl, by decide, by decide⟩

/-- A reported round-trip time above 10000 ms makes the en/rs/03 check
fail. -/
theorem rs03_bad_rtt_fails (out : Str)
    (h : (rs03_rtts out).any (fun r => decide (10000 < r)) = true) :
    rs03_check_output true out = false := by
  unfold rs03_rtts at h
  cases hd : searchPos matchDialingAt out with
  | none => rw [hd] at h; simp at h
  | some pd =>
    obtain ⟨i2, ma⟩ := pd
    rw [hd] at h
    dsimp only [] at h
    cases hc : searchPos (matchConnectedAt ma) out with
    | none => rw [hc] at h; simp at h
    | some pc =>
      obtain ⟨i3, rp⟩ := pc
      rw [hc] at h
      dsimp only [] at h
      have hne : (findAllPings rp out).isEmpty = false := by
        obtain ⟨x, hx, _⟩ := List.any_eq_true.1 h
        cases hfa : findAllPings rp out with
        | nil => rw [hfa] at hx; simp at hx
        | cons y ys => simp [hfa]
      unfold rs03_check_output
      cases hp : searchPos matchLocalPeerIdAt out with
      | none => simp [hp]
      | some pp =>
        obtain ⟨i1, pid⟩ := pp
        simp [hp, hd, hc, h, hne]

/-- In a passing en/rs/03 run every reported round-trip time is at most
10000 ms. -/
theorem rs03_check_true_rtts (out : Str) (h : rs03_check_output true out = true) :
    (rs03_rtts out).all (fun r => decide (r ≤ 10000)) = true := by
  cases hb : (rs03_rtts out).any (fun r => decide (10000 < r)) with
  | true =>
    rw [rs03_bad_rtt_fails out hb] at h
    simp at h
  | false =>
    rw [List.all_eq_true]
    intro x hx
    have hall := List.any_eq_false.1 hb x hx
    simp at hall
    simp [hall]

/-- C10.  Every reported round-trip time captured by the en/rs/03 ping
rule must lie in 0..10000 ms (the lower bound holds since captures are
digit runs, hence natural numbers): any reported value above 10000 makes
the whole check fail, and a passing check has all reported values at
most 10000. -/
theorem claim10_theorem :
    ∀ (out : Str),
      ((rs03_rtts out).any (fun r => decide (10000 < r)) = true →
        rs03_check_output true out = false)
    ∧ (rs03_check_output true out = true →
        (rs03_rtts out).all (fun r => decide (r ≤ 10000)) = true) :=
  fun out => ⟨rs03_bad_rtt_fails out, rs03_check_true_rtts out⟩

/-- C10, witness: a trace reporting a 20000 ms round-trip time fails the
check, and a passing trace has all its reported round-trip times within
bound. -/
theorem claim10_witness :
    rs03_check_output true cx10 = false ∧
    (rs03_rtts cx10ok).all (fun r => decide (r ≤ 10000)) = true :=
  ⟨(claim10_theorem cx10).1 (by decide), (claim10_theorem cx10ok).2 (by decide)⟩
